import Mathlib

/-!
Verification of the fan-out/aggregation core of the logistIQ repository.

The development shallowly embeds the Airia client (`src/lib/airia-client.ts`)
and the session-state hook (`src/hooks/use-airia-agents.ts`).  Network
transport (`fetch`), JSON parsing and wall-clock timing are modelled as an
explicit environment `Env`; every other definition is translated directly
from the TypeScript source.  A `throw` inside the source's `try` block is
modelled as an immediate jump to the corresponding `catch` handler, which
builds a failed `AiriaResponse` from the thrown message, exactly as the
source's handler does.
-/

set_option autoImplicit false

namespace LogistIQ

/-- One entry of the agent registry (`interface AiriaAgent`). -/
structure AiriaAgent where
  name : String
  guid : String
  endpoint : String
  deriving DecidableEq, Repr

/-- Normalized result of one agent call (`interface AiriaResponse`).
`data` is the parsed response payload, kept opaque as a string value. -/
structure AiriaResponse where
  success : Bool
  data : Option String
  error : Option String
  agent_name : String
  execution_time : Option Nat
  deriving DecidableEq, Repr

/-- The static agent registry `AIRIA_AGENTS` of `src/lib/airia-client.ts`. -/
def AIRIA_AGENTS : List AiriaAgent :=
  [ { name := "Route_Validator",
      guid := "71c23734-2a91-4345-bcdf-887717c73769",
      endpoint := "https://api.airia.ai/v2/PipelineExecution/71c23734-2a91-4345-bcdf-887717c73769" },
    { name := "Value_validator",
      guid := "07a2107e-9c9b-4cf1-b91c-85d6b07963d9",
      endpoint := "https://api.airia.ai/v2/PipelineExecution/07a2107e-9c9b-4cf1-b91c-85d6b07963d9" },
    { name := "Regulatory_compliance_checker",
      guid := "cff07b49-dd72-4941-ab48-7da1907b6f4b",
      endpoint := "https://api.airia.ai/v2/PipelineExecution/cff07b49-dd72-4941-ab48-7da1907b6f4b" },
    { name := "Supplier_History_Analyzer",
      guid := "5fdf36fa-632a-4154-ba92-d182bf93cb72",
      endpoint := "https://api.airia.ai/v2/PipelineExecution/5fdf36fa-632a-4154-ba92-d182bf93cb72" },
    { name := "Risk Scorer_&_Prioritizer",
      guid := "bb5aa7e3-a134-4866-98d7-74c8b311fc53",
      endpoint := "https://api.airia.ai/v2/PipelineExecution/bb5aa7e3-a134-4866-98d7-74c8b311fc53" },
    { name := "Document_consistency_checker",
      guid := "f0265e05-d232-45f7-aab5-c0bc2b870171",
      endpoint := "https://api.airia.ai/v2/PipelineExecution/f0265e05-d232-45f7-aab5-c0bc2b870171" },
    { name := "hs_code_validator",
      guid := "09d34238-c58a-41ff-8034-7f9ebe3e1d73",
      endpoint := "https://api.airia.ai/v2/PipelineExecution/09d34238-c58a-41ff-8034-7f9ebe3e1d73" },
    { name := "Origin_validator",
      guid := "f182b7d5-5da3-4a90-b535-122e88f96087",
      endpoint := "https://api.airia.ai/v2/PipelineExecution/f182b7d5-5da3-4a90-b535-122e88f96087" } ]

/-- Result of one `fetch` call: an HTTP response (status and body text) or a
thrown transport exception carrying a message. -/
inductive FetchResult where
  | response (status : Nat) (body : String)
  | thrown (msg : String)
  deriving DecidableEq, Repr

/-- The ambient effects `sendToAgent` depends on: the configured credential
and base URL (from the constructor's environment reads), the transport
(`fetch`, keyed by endpoint and user input), `JSON.parse` (which either
returns a value or throws a message), and the wall-clock duration the pair
of `Date.now()` calls observes. -/
structure Env where
  apiKey : String
  baseUrl : String
  fetch : String → String → FetchResult
  parse : String → Except String String
  elapsed : Nat

/-- The message thrown when the GUID is not in the registry. -/
def notFoundMsg (agentGuid : String) : String :=
  "Agent with GUID " ++ agentGuid ++ " not found"

/-- The message thrown when the API key is empty. -/
def apiKeyMsg : String :=
  "API key not configured. Please set NEXT_PUBLIC_AIRIA_API_KEY in .env.local"

/-- The `catch` handler's failed response: `success: false`, the thrown
message as `error`, the resolved (or fallback) agent name, and the elapsed
time. -/
def failedResponse (agentName msg : String) (executionTime : Nat) : AiriaResponse :=
  { success := false, data := none, error := some msg,
    agent_name := agentName, execution_time := some executionTime }

/-- `response.ok`: status in the 2xx range. -/
def statusOk (status : Nat) : Bool :=
  200 ≤ status && status < 300

/-- The endpoint used for a resolved agent: the registry entry's endpoint,
or the default derived from the base URL when the entry's is empty
(`agent.endpoint || baseUrl + '/v2/PipelineExecution/' + agentGuid`). -/
def endpointOf (env : Env) (agent : AiriaAgent) (agentGuid : String) : String :=
  if agent.endpoint ≠ "" then agent.endpoint
  else env.baseUrl ++ "/v2/PipelineExecution/" ++ agentGuid

/-- `AiriaClient.sendToAgent`, instrumented with the list of endpoints it
fetched (the network trace).  Each `throw` site of the source becomes the
`catch` handler's failed response at that point. -/
def sendToAgentT (env : Env) (agentGuid textInput : String) :
    AiriaResponse × List String :=
  let agent? := AIRIA_AGENTS.find? (fun a => a.guid == agentGuid)
  let agentName := match agent? with
    | some a => a.name
    | none => "Unknown"
  match agent? with
  | none => (failedResponse agentName (notFoundMsg agentGuid) env.elapsed, [])
  | some agent =>
    if env.apiKey = "" then
      (failedResponse agentName apiKeyMsg env.elapsed, [])
    else
      let endpoint := endpointOf env agent agentGuid
      match env.fetch endpoint textInput with
      | .thrown msg => (failedResponse agentName msg env.elapsed, [endpoint])
      | .response status responseText =>
        if ¬ statusOk status then
          (failedResponse agentName
            ("Airia API error (" ++ toString status ++ "): " ++ responseText)
            env.elapsed, [endpoint])
        else
          match env.parse responseText with
          | .error msg => (failedResponse agentName msg env.elapsed, [endpoint])
          | .ok d =>
            ({ success := true, data := some d, error := none,
               agent_name := agentName, execution_time := some env.elapsed },
             [endpoint])

/-- `AiriaClient.sendToAgent`: the returned response. -/
def sendToAgent (env : Env) (agentGuid textInput : String) : AiriaResponse :=
  (sendToAgentT env agentGuid textInput).1

/-- The endpoints `sendToAgent` actually fetched. -/
def sendToAgentTrace (env : Env) (agentGuid textInput : String) : List String :=
  (sendToAgentT env agentGuid textInput).2

/-- `AiriaClient.processWithAllAgents`, instrumented with the concatenated
network trace.  One invocation is launched per registry entry; every
invocation settles fulfilled because `sendToAgent` is total, so the
`Promise.allSettled` re-mapping returns each fulfilled value in launch
order (the `rejected` arm of the source is unreachable). -/
def processWithAllAgentsT (env : Env) (textInput : String) :
    List AiriaResponse × List String :=
  let settled := AIRIA_AGENTS.map (fun agent => sendToAgentT env agent.guid textInput)
  (settled.map Prod.fst, (settled.map Prod.snd).flatten)

/-- `AiriaClient.processWithAllAgents`: the returned response list. -/
def processWithAllAgents (env : Env) (textInput : String) : List AiriaResponse :=
  (processWithAllAgentsT env textInput).1

/-- `AiriaClient.processWithSpecificAgents`, instrumented with the
concatenated network trace.  One invocation per requested GUID, in request
order; as above the `rejected` arm of the `allSettled` re-mapping is
unreachable. -/
def processWithSpecificAgentsT (env : Env) (textInput : String)
    (agentGuids : List String) : List AiriaResponse × List String :=
  let settled := agentGuids.map (fun guid => sendToAgentT env guid textInput)
  (settled.map Prod.fst, (settled.map Prod.snd).flatten)

/-- `AiriaClient.processWithSpecificAgents`: the returned response list. -/
def processWithSpecificAgents (env : Env) (textInput : String)
    (agentGuids : List String) : List AiriaResponse :=
  (processWithSpecificAgentsT env textInput agentGuids).1

/-- `AiriaClient.getAgentByGuid`. -/
def getAgentByGuid (guid : String) : Option AiriaAgent :=
  AIRIA_AGENTS.find? (fun agent => agent.guid == guid)

/-! ### The session-state hook (`src/hooks/use-airia-agents.ts`) -/

/-- `interface AgentProcessingState` of the hook. -/
structure AgentProcessingState where
  isProcessing : Bool
  currentAgent : Option String
  progress : Nat
  results : List AiriaResponse
  errors : List String
  completedAgents : List String
  deriving DecidableEq, Repr

/-- The initial processing state passed to `useState`. -/
def initialProcessingState : AgentProcessingState :=
  { isProcessing := false, currentAgent := none, progress := 0,
    results := [], errors := [], completedAgents := [] }

/-- The hook's full mutable state: the processing state plus the staged
`pdfText` payload. -/
structure HookState where
  state : AgentProcessingState
  pdfText : String
  deriving DecidableEq, Repr

/-- Result of running one hook operation: the returned value, the final
hook state, the successive processing states produced by each `setState`
call (in order), and the endpoints fetched during the operation. -/
structure HookRun (α : Type) where
  ret : α
  final : HookState
  states : List AgentProcessingState
  netTrace : List String

/-- `textInput || pdfText`: the optional argument when it is truthy
(present and non-empty), else the staged payload. -/
def orPdfText (textInput : Option String) (pdfText : String) : String :=
  match textInput with
  | none => pdfText
  | some t => if t = "" then pdfText else t

/-- The session-level message recorded for a blank batch input. -/
def noInputMsg : String := "No text input provided"

/-- The ECMAScript whitespace class used by `String.prototype.trim`:
WhiteSpace (TAB, VT, FF, SP, NBSP, BOM and the Unicode space separators)
plus the LineTerminator code points. -/
def isJsWhitespace (c : Char) : Bool :=
  c.toNat ∈ ([9, 10, 11, 12, 13, 32, 160, 0x1680,
    0x2000, 0x2001, 0x2002, 0x2003, 0x2004, 0x2005, 0x2006, 0x2007,
    0x2008, 0x2009, 0x200a, 0x2028, 0x2029, 0x202f, 0x205f, 0x3000,
    0xfeff] : List Nat)

/-- The JavaScript built-in `input.trim()`: strips leading and trailing
ECMAScript whitespace. -/
def jsTrim (s : String) : String :=
  String.mk (((s.data.dropWhile isJsWhitespace).reverse.dropWhile isJsWhitespace).reverse)

/-- The hook's `processWithAllAgents` callback.  A blank (after trim) input
appends one error and returns `[]` without dispatching; otherwise the state
is replaced by a fresh in-flight state, the client batch runs, and a second
update records the settled results.  The client call cannot throw, so the
`catch` arm of the source is unreachable. -/
def hookProcessAll (env : Env) (s : HookState) (textInput : Option String) :
    HookRun (List AiriaResponse) :=
  let input := orPdfText textInput s.pdfText
  if jsTrim input = "" then
    let st1 := { s.state with errors := s.state.errors ++ [noInputMsg] }
    ⟨[], { s with state := st1 }, [st1], []⟩
  else
    let st1 := { initialProcessingState with isProcessing := true }
    let batch := processWithAllAgentsT env input
    let st2 := { st1 with
      isProcessing := false, currentAgent := none,
      progress := 100, results := batch.1,
      completedAgents := batch.1.map (fun r => r.agent_name) }
    ⟨batch.1, { s with state := st2 }, [st1, st2], batch.2⟩

/-- The hook's `processWithSpecificAgents` callback; same shape as
`hookProcessAll` over the requested GUID list. -/
def hookProcessSpecific (env : Env) (s : HookState) (agentGuids : List String)
    (textInput : Option String) : HookRun (List AiriaResponse) :=
  let input := orPdfText textInput s.pdfText
  if jsTrim input = "" then
    let st1 := { s.state with errors := s.state.errors ++ [noInputMsg] }
    ⟨[], { s with state := st1 }, [st1], []⟩
  else
    let st1 := { initialProcessingState with isProcessing := true }
    let batch := processWithSpecificAgentsT env input agentGuids
    let st2 := { st1 with
      isProcessing := false, currentAgent := none,
      progress := 100, results := batch.1,
      completedAgents := batch.1.map (fun r => r.agent_name) }
    ⟨batch.1, { s with state := st2 }, [st1, st2], batch.2⟩

/-- The hook's `processSingleAgent` callback: blank-input check first, then
agent resolution, then one in-flight state update, one `sendToAgent` call,
and a final update appending the settled outcome. -/
def hookProcessSingle (env : Env) (s : HookState) (agentGuid : String)
    (textInput : Option String) : HookRun (Option AiriaResponse) :=
  let input := orPdfText textInput s.pdfText
  if jsTrim input = "" then
    let st1 := { s.state with errors := s.state.errors ++ [noInputMsg] }
    ⟨none, { s with state := st1 }, [st1], []⟩
  else
    match getAgentByGuid agentGuid with
    | none =>
      let st1 := { s.state with errors := s.state.errors ++ [notFoundMsg agentGuid] }
      ⟨none, { s with state := st1 }, [st1], []⟩
    | some agent =>
      let st1 := { s.state with
        isProcessing := true, currentAgent := some agent.name, progress := 0 }
      let call := sendToAgentT env agentGuid input
      let st2 := { st1 with
        isProcessing := false, currentAgent := none,
        progress := 100, results := st1.results ++ [call.1],
        completedAgents := st1.completedAgents ++ [call.1.agent_name] }
      ⟨some call.1, { s with state := st2 }, [st1, st2], call.2⟩

/-- The hook's `resetState` callback: restores the initial processing state
and clears the staged `pdfText`. -/
def hookResetState (s : HookState) : HookState :=
  { s with state := initialProcessingState, pdfText := "" }

/-- The hook's `clearErrors` callback: empties `errors`, keeps the rest. -/
def hookClearErrors (s : HookState) : HookState :=
  { s with state := { s.state with errors := [] } }

/-! ### Session invariant -/

/-- The hook's derived-field invariant: `completedAgents` is exactly the
ordered sequence of `agent_name` over the recorded `results`. -/
def SessionInv (st : AgentProcessingState) : Prop :=
  st.completedAgents = st.results.map (fun r => r.agent_name)

/-! ### Concrete environments and states used by witnesses -/

/-- An environment with no API key configured and an always-failing
transport. -/
def envNoKey : Env :=
  { apiKey := "", baseUrl := "https://api.airia.ai",
    fetch := fun _ _ => .thrown "network unavailable",
    parse := fun _ => .error "SyntaxError: Unexpected token", elapsed := 7 }

/-- A 300-character response body, longer than the 200-character excerpt
the source's debug log keeps. -/
def body300 : String := String.mk (List.replicate 300 'x')

/-- An environment whose transport always answers HTTP 500 with the
300-character body. -/
def env500 : Env :=
  { apiKey := "secret", baseUrl := "https://api.airia.ai",
    fetch := fun _ _ => .response 500 body300,
    parse := fun _ => .error "SyntaxError: Unexpected token", elapsed := 5 }

/-- An environment whose transport always answers HTTP 200 with a body
that parses. -/
def envOk : Env :=
  { apiKey := "secret", baseUrl := "https://api.airia.ai",
    fetch := fun _ _ => .response 200 "{}",
    parse := fun _ => .ok "parsed", elapsed := 3 }

/-- The GUID of the first registry entry (`Route_Validator`). -/
def guid0 : String := "71c23734-2a91-4345-bcdf-887717c73769"

/-- The hook's initial state with no staged payload. -/
def hs0 : HookState := { state := initialProcessingState, pdfText := "" }

/-! ### Helper lemmas -/

theorem length_processWithSpecificAgents (env : Env) (t : String) (S : List String) :
    (processWithSpecificAgents env t S).length = S.length := by
  simp [processWithSpecificAgents, processWithSpecificAgentsT]

theorem getElem?_processWithSpecificAgents (env : Env) (t : String) (S : List String)
    (i : Nat) :
    (processWithSpecificAgents env t S)[i]? = (S[i]?).map (fun g => sendToAgent env g t) := by
  simp [processWithSpecificAgents, processWithSpecificAgentsT, sendToAgent,
    List.getElem?_map, Function.comp_def]

theorem length_processWithAllAgents (env : Env) (t : String) :
    (processWithAllAgents env t).length = AIRIA_AGENTS.length := by
  simp [processWithAllAgents, processWithAllAgentsT]

theorem getElem?_processWithAllAgents (env : Env) (t : String) (i : Nat) :
    (processWithAllAgents env t)[i]? =
      (AIRIA_AGENTS[i]?).map (fun a => sendToAgent env a.guid t) := by
  simp [processWithAllAgents, processWithAllAgentsT, sendToAgent,
    List.getElem?_map, Function.comp_def]

theorem sendToAgentT_of_not_found (env : Env) (g t : String)
    (h : AIRIA_AGENTS.find? (fun a => a.guid == g) = none) :
    sendToAgentT env g t = (failedResponse "Unknown" (notFoundMsg g) env.elapsed, []) := by
  simp only [sendToAgentT, h]

theorem sendToAgentT_of_no_key (env : Env) (g t : String) (agent : AiriaAgent)
    (h : AIRIA_AGENTS.find? (fun a => a.guid == g) = some agent)
    (hk : env.apiKey = "") :
    sendToAgentT env g t = (failedResponse agent.name apiKeyMsg env.elapsed, []) := by
  simp only [sendToAgentT, h, hk, if_pos]

/-- The resolution-failure message can never coincide with the
missing-credential message: they differ at their second character. -/
theorem notFoundMsg_ne_apiKeyMsg (g : String) : notFoundMsg g ≠ apiKeyMsg := by
  intro h
  have h2 : (notFoundMsg g).data = apiKeyMsg.data := by rw [h]
  rw [notFoundMsg] at h2
  rw [String.data_append, String.data_append] at h2
  have h3 := congrArg (fun l => l.get? 1) h2
  simp [List.getElem?_append_left] at h3
  exact absurd h3 (by decide)

/-! ### Claims -/

/-- Claim C1: for every requested GUID list `S`, `processWithSpecificAgents`
returns exactly `|S|` outcomes and the `i`-th outcome is the invocation of
the `i`-th requested GUID; `processWithAllAgents` returns one outcome per
registry entry, in registry order, for every environment (hence regardless
of how many invocations fail). -/
theorem coordinator_one_outcome_per_request (env : Env) (t : String) (S : List String) :
    ((processWithSpecificAgents env t S).length = S.length ∧
      ∀ i : Nat, (processWithSpecificAgents env t S)[i]? =
        (S[i]?).map (fun g => sendToAgent env g t)) ∧
    ((processWithAllAgents env t).length = AIRIA_AGENTS.length ∧
      ∀ i : Nat, (processWithAllAgents env t)[i]? =
        (AIRIA_AGENTS[i]?).map (fun a => sendToAgent env a.guid t)) :=
  ⟨⟨length_processWithSpecificAgents env t S,
    fun i => getElem?_processWithSpecificAgents env t S i⟩,
   ⟨length_processWithAllAgents env t,
    fun i => getElem?_processWithAllAgents env t i⟩⟩

/-- Claim C2: `sendToAgent` is a total function over GUID, input and
environment (every failure mode of the source is a `throw` inside the
`try` block, handled by the `catch` into a returned response); the returned
response is either a success carrying data and no error, or a failure
flagged `success = false` carrying an error message. -/
theorem sendToAgent_total_never_raises (env : Env) (g t : String) :
    ((sendToAgent env g t).success = true ∧ (sendToAgent env g t).error = none ∧
      (sendToAgent env g t).data.isSome) ∨
    ((sendToAgent env g t).success = false ∧ ∃ m, (sendToAgent env g t).error = some m) := by
  unfold sendToAgent sendToAgentT
  cases hA : AIRIA_AGENTS.find? (fun a => a.guid == g) with
  | none => simp [failedResponse]
  | some agent =>
    by_cases hk : env.apiKey = ""
    · simp [hk, failedResponse]
    · simp only [hk, if_neg, ite_false]
      cases hf : env.fetch (endpointOf env agent g) t with
      | thrown m => simp [failedResponse]
      | response st body =>
        by_cases hok : statusOk st
        · simp only [hok]
          cases hp : env.parse body with
          | error m => simp [failedResponse]
          | ok d => simp
        · simp [hok, failedResponse]

/-- Claim C3: a blank (empty or whitespace-only) batch input makes both
batch entry points return zero outcomes, record exactly one session-level
failure message, launch zero invocations (empty network trace), and never
set the in-flight flag during the call. -/
theorem blank_input_single_failure_no_dispatch (env : Env) (s : HookState)
    (tIn : Option String) (S : List String)
    (hblank : jsTrim (orPdfText tIn s.pdfText) = "")
    (hidle : s.state.isProcessing = false) :
    ((hookProcessAll env s tIn).ret = [] ∧
      (hookProcessAll env s tIn).final.state.errors = s.state.errors ++ [noInputMsg] ∧
      (hookProcessAll env s tIn).netTrace = [] ∧
      ∀ st ∈ (hookProcessAll env s tIn).states, st.isProcessing = false) ∧
    ((hookProcessSpecific env s S tIn).ret = [] ∧
      (hookProcessSpecific env s S tIn).final.state.errors = s.state.errors ++ [noInputMsg] ∧
      (hookProcessSpecific env s S tIn).netTrace = [] ∧
      ∀ st ∈ (hookProcessSpecific env s S tIn).states, st.isProcessing = false) := by
  simp [hookProcessAll, hookProcessSpecific, hblank, hidle]

/-- Claim C3 witness: a three-space input on the fresh hook state. -/
theorem blank_input_single_failure_no_dispatch_witness :
    (hookProcessAll envNoKey hs0 (some "   ")).ret = [] ∧
    (hookProcessAll envNoKey hs0 (some "   ")).final.state.errors = [noInputMsg] ∧
    (hookProcessAll envNoKey hs0 (some "   ")).netTrace = [] ∧
    (∀ st ∈ (hookProcessAll envNoKey hs0 (some "   ")).states, st.isProcessing = false) ∧
    (hookProcessSpecific envNoKey hs0 [guid0] (some "   ")).ret = [] := by
  have h := blank_input_single_failure_no_dispatch envNoKey hs0 (some "   ") [guid0]
    (by decide) rfl
  exact ⟨h.1.1, h.1.2.1, h.1.2.2.1, h.1.2.2.2, h.2.1⟩

/-- Claim C4: with an empty API key, every invocation of a registered agent
fails with the missing-credential message, fetches nothing, and each batch
slot's outcome depends only on its own requested GUID (so sibling
invocations are unaffected). -/
theorem missing_key_config_failure (env : Env) (g t : String) (agent : AiriaAgent)
    (hkey : env.apiKey = "")
    (hfind : AIRIA_AGENTS.find? (fun a => a.guid == g) = some agent)
    (_hne : t ≠ "") :
    (sendToAgent env g t).success = false ∧
    (sendToAgent env g t).error = some apiKeyMsg ∧
    sendToAgentTrace env g t = [] ∧
    ∀ (S : List String) (i : Nat),
      (processWithSpecificAgents env t S)[i]? =
        (S[i]?).map (fun g2 => sendToAgent env g2 t) := by
  have h := sendToAgentT_of_no_key env g t agent hfind hkey
  refine ⟨?_, ?_, ?_, fun S i => getElem?_processWithSpecificAgents env t S i⟩
  · simp [sendToAgent, h, failedResponse]
  · simp [sendToAgent, h, failedResponse]
  · simp [sendToAgentTrace, h]

/-- Claim C4 witness: the keyless environment against the first registry
entry. -/
theorem missing_key_config_failure_witness :
    (sendToAgent envNoKey guid0 "doc").success = false ∧
    (sendToAgent envNoKey guid0 "doc").error = some apiKeyMsg ∧
    sendToAgentTrace envNoKey guid0 "doc" = [] ∧
    ∀ (S : List String) (i : Nat),
      (processWithSpecificAgents envNoKey "doc" S)[i]? =
        (S[i]?).map (fun g2 => sendToAgent envNoKey g2 "doc") := by
  exact missing_key_config_failure envNoKey guid0 "doc"
    ⟨"Route_Validator", guid0,
      "https://api.airia.ai/v2/PipelineExecution/71c23734-2a91-4345-bcdf-887717c73769"⟩
    rfl (by decide) (by decide)

/-- Claim C5: a subset request whose `i`-th GUID is unknown yields, at
position `i`, a synthesized failed outcome with the fallback name
`"Unknown"` and a reason embedding the missing GUID, while every slot of
the batch (in particular every other slot) is the invocation of its own
requested GUID alone. -/
theorem unknown_id_synthesized_failure (env : Env) (t : String) (S : List String) (i : Nat)
    (hi : i < S.length)
    (hunk : AIRIA_AGENTS.find? (fun a => a.guid == S.get ⟨i, hi⟩) = none) :
    (processWithSpecificAgents env t S)[i]? =
      some (failedResponse "Unknown" (notFoundMsg (S.get ⟨i, hi⟩)) env.elapsed) ∧
    (failedResponse "Unknown" (notFoundMsg (S.get ⟨i, hi⟩)) env.elapsed).success = false ∧
    (failedResponse "Unknown" (notFoundMsg (S.get ⟨i, hi⟩)) env.elapsed).agent_name
      = "Unknown" ∧
    (∀ j : Nat, (processWithSpecificAgents env t S)[j]? =
      (S[j]?).map (fun g => sendToAgent env g t)) := by
  refine ⟨?_, rfl, rfl, fun j => getElem?_processWithSpecificAgents env t S j⟩
  rw [getElem?_processWithSpecificAgents]
  have hS : S[i]? = some (S.get ⟨i, hi⟩) := by
    rw [List.getElem?_eq_getElem hi]; rfl
  rw [hS, Option.map_some']
  have h2 := sendToAgentT_of_not_found env (S.get ⟨i, hi⟩) t hunk
  show some ((sendToAgentT env (S.get ⟨i, hi⟩) t).1) = _
  rw [h2]

/-- Claim C5 witness: `["<Route_Validator guid>", "does-not-exist"]` at
position 1. -/
theorem unknown_id_synthesized_failure_witness :
    (processWithSpecificAgents envOk "text" [guid0, "does-not-exist"])[1]? =
      some (failedResponse "Unknown" (notFoundMsg "does-not-exist") envOk.elapsed) ∧
    (failedResponse "Unknown" (notFoundMsg "does-not-exist") envOk.elapsed).success
      = false ∧
    (failedResponse "Unknown" (notFoundMsg "does-not-exist") envOk.elapsed).agent_name
      = "Unknown" ∧
    (∀ j : Nat, (processWithSpecificAgents envOk "text" [guid0, "does-not-exist"])[j]? =
      (([guid0, "does-not-exist"] : List String)[j]?).map
        (fun g => sendToAgent envOk g "text")) := by
  exact unknown_id_synthesized_failure envOk "text" [guid0, "does-not-exist"] 1
    (by decide) (by decide)

/-- The first registry entry, written out. -/
def agent0 : AiriaAgent :=
  { name := "Route_Validator", guid := guid0,
    endpoint := "https://api.airia.ai/v2/PipelineExecution/71c23734-2a91-4345-bcdf-887717c73769" }

set_option maxRecDepth 4000 in
/-- Claim C6 counterexample: the claim asserts the non-2xx failure reason
embeds only a bounded (truncated) prefix of the raw body.  In the source
the 200-character `substring` is applied only to the debug log; the thrown
message interpolates the whole `responseText`.  With a 300-character body
the returned reason carries all 323 characters, exceeding any truncation
at the source's only bound (200). -/
theorem non2xx_reason_full_body_cex :
    (sendToAgent env500 guid0 "doc").error =
      some ("Airia API error (500): " ++ body300) ∧
    body300.length = 300 ∧
    ("Airia API error (500): " ++ body300).length = 323 := by
  refine ⟨by decide, by decide, by decide⟩

/-- Claim C6 (amended): for every invocation whose transport returns a
non-2xx status, the outcome fails with a reason embedding the HTTP status
code and the entire raw response body (no truncation); on transport
exceptions the reason is the exception's message. -/
theorem non2xx_and_exception_reason (env : Env) (g t : String) (agent : AiriaAgent)
    (hfind : AIRIA_AGENTS.find? (fun a => a.guid == g) = some agent)
    (hkey : env.apiKey ≠ "") :
    (∀ (status : Nat) (body : String),
      env.fetch (endpointOf env agent g) t = .response status body →
      statusOk status = false →
      sendToAgent env g t =
        failedResponse agent.name
          ("Airia API error (" ++ toString status ++ "): " ++ body) env.elapsed) ∧
    (∀ msg : String, env.fetch (endpointOf env agent g) t = .thrown msg →
      sendToAgent env g t = failedResponse agent.name msg env.elapsed) := by
  constructor
  · intro status body hf hok
    simp [sendToAgent, sendToAgentT, hfind, hkey, hf, hok]
  · intro msg hf
    simp [sendToAgent, sendToAgentT, hfind, hkey, hf]

/-- Claim C6 witness: the HTTP-500 environment against the first registry
entry. -/
theorem non2xx_and_exception_reason_witness :
    (∀ (status : Nat) (body : String),
      env500.fetch (endpointOf env500 agent0 guid0) "doc" = .response status body →
      statusOk status = false →
      sendToAgent env500 guid0 "doc" =
        failedResponse agent0.name
          ("Airia API error (" ++ toString status ++ "): " ++ body) env500.elapsed) ∧
    (∀ msg : String, env500.fetch (endpointOf env500 agent0 guid0) "doc" = .thrown msg →
      sendToAgent env500 guid0 "doc" = failedResponse agent0.name msg env500.elapsed) := by
  exact non2xx_and_exception_reason env500 guid0 "doc" agent0 (by decide) (by decide)

/-- Claim C7: if `completedAgents = results.map agent_name` holds before,
it holds after each hook operation settles (both batch entry points on any
input, including failed input validation; single-agent processing; reset;
clearErrors), and every recorded outcome's name — in particular that of a
worker that settled with a failure — appears in `completedAgents`. -/
theorem completed_names_invariant (env : Env) (s : HookState) (tIn : Option String)
    (S : List String) (g : String)
    (h : SessionInv s.state) :
    SessionInv (hookProcessAll env s tIn).final.state ∧
    SessionInv (hookProcessSpecific env s S tIn).final.state ∧
    SessionInv (hookProcessSingle env s g tIn).final.state ∧
    SessionInv (hookResetState s).state ∧
    SessionInv (hookClearErrors s).state ∧
    ∀ r ∈ (hookProcessAll env s tIn).final.state.results,
      r.agent_name ∈ (hookProcessAll env s tIn).final.state.completedAgents := by
  have h2 : s.state.completedAgents = s.state.results.map (fun r => r.agent_name) := h
  have hAll : SessionInv (hookProcessAll env s tIn).final.state := by
    by_cases hb : jsTrim (orPdfText tIn s.pdfText) = "" <;>
      simp [hookProcessAll, hb, SessionInv, h2]
  have hSpec : SessionInv (hookProcessSpecific env s S tIn).final.state := by
    by_cases hb : jsTrim (orPdfText tIn s.pdfText) = "" <;>
      simp [hookProcessSpecific, hb, SessionInv, h2]
  have hSingle : SessionInv (hookProcessSingle env s g tIn).final.state := by
    by_cases hb : jsTrim (orPdfText tIn s.pdfText) = ""
    · simp [hookProcessSingle, hb, SessionInv, h2]
    · cases hg : getAgentByGuid g with
      | none => simp [hookProcessSingle, hb, hg, SessionInv, h2]
      | some agent => simp [hookProcessSingle, hb, hg, SessionInv, h2]
  refine ⟨hAll, hSpec, hSingle, rfl, h, ?_⟩
  intro r hr
  rw [hAll]
  exact List.mem_map_of_mem _ hr

/-- Claim C7 witness: the fresh hook state (where the invariant holds
trivially) under the all-2xx environment. -/
theorem completed_names_invariant_witness :
    SessionInv (hookProcessAll envOk hs0 (some "doc")).final.state ∧
    SessionInv (hookProcessSpecific envOk hs0 [guid0] (some "doc")).final.state ∧
    SessionInv (hookProcessSingle envOk hs0 guid0 (some "doc")).final.state ∧
    SessionInv (hookResetState hs0).state ∧
    SessionInv (hookClearErrors hs0).state ∧
    ∀ r ∈ (hookProcessAll envOk hs0 (some "doc")).final.state.results,
      r.agent_name ∈ (hookProcessAll envOk hs0 (some "doc")).final.state.completedAgents := by
  exact completed_names_invariant envOk hs0 (some "doc") [guid0] guid0 rfl

/-- Claim C8: `resetState` is idempotent — it is the constant map to the
all-empty session with the staged `pdfText` cleared, so applying it twice
equals applying it once. -/
theorem resetState_idempotent (s : HookState) :
    hookResetState (hookResetState s) = hookResetState s ∧
    hookResetState s = { state := initialProcessingState, pdfText := "" } :=
  ⟨rfl, rfl⟩

/-- Claim C9: `clearErrors` empties `errors` and leaves every other
session field — results, completed names, the in-flight flag, the active
agent, the progress and the staged payload — unchanged. -/
theorem clearErrors_frame (s : HookState) :
    (hookClearErrors s).state.errors = [] ∧
    (hookClearErrors s).state.results = s.state.results ∧
    (hookClearErrors s).state.completedAgents = s.state.completedAgents ∧
    (hookClearErrors s).state.isProcessing = s.state.isProcessing ∧
    (hookClearErrors s).state.currentAgent = s.state.currentAgent ∧
    (hookClearErrors s).state.progress = s.state.progress ∧
    (hookClearErrors s).pdfText = s.pdfText :=
  ⟨rfl, rfl, rfl, rfl, rfl, rfl, rfl⟩

/-- Claim C10: precondition-check ordering.  For an unregistered GUID,
`sendToAgent` returns the resolution failure for every environment —
including those with an empty API key — so the missing-credential message
can only be reported for a GUID present in the registry; and the hook's
single-agent entry point checks for blank input before agent resolution,
so a blank input on an unknown GUID records the input failure, not the
not-found failure. -/
theorem resolution_before_credential (env : Env) (g t : String) (s : HookState)
    (tIn : Option String)
    (hunk : AIRIA_AGENTS.find? (fun a => a.guid == g) = none) :
    sendToAgent env g t = failedResponse "Unknown" (notFoundMsg g) env.elapsed ∧
    (∀ (env2 : Env) (g2 t2 : String),
      (sendToAgent env2 g2 t2).error = some apiKeyMsg →
      (AIRIA_AGENTS.find? (fun a => a.guid == g2)).isSome) ∧
    (jsTrim (orPdfText tIn s.pdfText) = "" →
      (hookProcessSingle env s g tIn).ret = none ∧
      (hookProcessSingle env s g tIn).final.state.errors
        = s.state.errors ++ [noInputMsg]) := by
  refine ⟨?_, ?_, ?_⟩
  · simp [sendToAgent, sendToAgentT_of_not_found env g t hunk]
  · intro env2 g2 t2 herr
    cases hg : AIRIA_AGENTS.find? (fun a => a.guid == g2) with
    | some a => simp
    | none =>
      have heq := sendToAgentT_of_not_found env2 g2 t2 hg
      unfold sendToAgent at herr
      rw [heq] at herr
      simp [failedResponse] at herr
      exact absurd herr (notFoundMsg_ne_apiKeyMsg g2)
  · intro hb
    constructor <;> simp [hookProcessSingle, hb]

/-- Claim C10 witness: the unknown GUID `"does-not-exist"` under the
keyless environment, and a blank single-agent call on it. -/
theorem resolution_before_credential_witness :
    sendToAgent envNoKey "does-not-exist" "doc" =
      failedResponse "Unknown" (notFoundMsg "does-not-exist") envNoKey.elapsed ∧
    (∀ (env2 : Env) (g2 t2 : String),
      (sendToAgent env2 g2 t2).error = some apiKeyMsg →
      (AIRIA_AGENTS.find? (fun a => a.guid == g2)).isSome) ∧
    (jsTrim (orPdfText (some "") hs0.pdfText) = "" →
      (hookProcessSingle envNoKey hs0 "does-not-exist" (some "")).ret = none ∧
      (hookProcessSingle envNoKey hs0 "does-not-exist" (some "")).final.state.errors
        = hs0.state.errors ++ [noInputMsg]) := by
  exact resolution_before_credential envNoKey "does-not-exist" "doc" hs0 (some "")
    (by decide)

end LogistIQ
